import Mathlib

/-!
# log_functions: a PL/pgSQL lifecycle tracer

Shallow embedding of `log_functions.c` and the properties of its five
lifecycle handlers, its statement-kind classifier and its two registration
paths.

Conventions of the embedding

* The five GUC flags are a record `GUC` that the handlers read.
* The name-resolution service (the `PROCOID` system cache) is a function
  `SysCache` from routine identifiers to the `proname` of the tuple found,
  `none` standing for an invalid tuple.
* The statement-kind constants `PLPGSQL_STMT_*` come from the host's
  `plpgsql.h`; they are taken as a parameter `StmtTypes`, and the theorems
  that need it assume that the 22 case labels of the switch are pairwise
  distinct (a C switch with two equal case labels does not compile).
* A backend is the list of lines handed to the log sink together with the
  number of system-cache lookups made so far.  A handler maps a backend to an
  `Outcome`: either it returns, or `elog(ERROR, ...)` leaves it through a
  non-local exit that carries the error message.
* `elog` format strings are the literals of the source; `format` expands the
  conversions `%s`, `%d` and `%u`.
-/

namespace LogFunctions

/-! ## Host types -/

/-- Routine identifier (`Oid`, an unsigned integer). -/
abbrev Oid := Nat

/-- The field of `PLpgSQL_function` that the handlers read. -/
structure PLpgSQL_function where
  fn_oid : Oid

/-- The fields of `PLpgSQL_stmt` that the handlers read (both are C `int`). -/
structure PLpgSQL_stmt where
  cmd_type : Int
  lineno : Int

/-- The values of the 22 `PLPGSQL_STMT_*` constants that the switch of
`decode_stmt_type` names, in the order of its case labels. -/
structure StmtTypes where
  PLPGSQL_STMT_BLOCK : Int
  PLPGSQL_STMT_ASSIGN : Int
  PLPGSQL_STMT_PERFORM : Int
  PLPGSQL_STMT_GETDIAG : Int
  PLPGSQL_STMT_IF : Int
  PLPGSQL_STMT_CASE : Int
  PLPGSQL_STMT_LOOP : Int
  PLPGSQL_STMT_WHILE : Int
  PLPGSQL_STMT_FORI : Int
  PLPGSQL_STMT_FORS : Int
  PLPGSQL_STMT_FORC : Int
  PLPGSQL_STMT_EXIT : Int
  PLPGSQL_STMT_RETURN : Int
  PLPGSQL_STMT_RETURN_NEXT : Int
  PLPGSQL_STMT_RETURN_QUERY : Int
  PLPGSQL_STMT_RAISE : Int
  PLPGSQL_STMT_EXECSQL : Int
  PLPGSQL_STMT_DYNEXECUTE : Int
  PLPGSQL_STMT_DYNFORS : Int
  PLPGSQL_STMT_OPEN : Int
  PLPGSQL_STMT_FETCH : Int
  PLPGSQL_STMT_CLOSE : Int

/-- The case labels of the switch, in source order. -/
def StmtTypes.known (K : StmtTypes) : List Int :=
  [K.PLPGSQL_STMT_BLOCK, K.PLPGSQL_STMT_ASSIGN, K.PLPGSQL_STMT_PERFORM,
   K.PLPGSQL_STMT_GETDIAG, K.PLPGSQL_STMT_IF, K.PLPGSQL_STMT_CASE,
   K.PLPGSQL_STMT_LOOP, K.PLPGSQL_STMT_WHILE, K.PLPGSQL_STMT_FORI,
   K.PLPGSQL_STMT_FORS, K.PLPGSQL_STMT_FORC, K.PLPGSQL_STMT_EXIT,
   K.PLPGSQL_STMT_RETURN, K.PLPGSQL_STMT_RETURN_NEXT,
   K.PLPGSQL_STMT_RETURN_QUERY, K.PLPGSQL_STMT_RAISE, K.PLPGSQL_STMT_EXECSQL,
   K.PLPGSQL_STMT_DYNEXECUTE, K.PLPGSQL_STMT_DYNFORS, K.PLPGSQL_STMT_OPEN,
   K.PLPGSQL_STMT_FETCH, K.PLPGSQL_STMT_CLOSE]

/-- A sample enumeration, numbered from 0 the way a C enum is.  The values 9
and 15 are left to members that the switch of `decode_stmt_type` does not
name, as happens when the host header has more kinds than the module. -/
def sampleStmtTypes : StmtTypes where
  PLPGSQL_STMT_BLOCK := 0
  PLPGSQL_STMT_ASSIGN := 1
  PLPGSQL_STMT_IF := 2
  PLPGSQL_STMT_CASE := 3
  PLPGSQL_STMT_LOOP := 4
  PLPGSQL_STMT_WHILE := 5
  PLPGSQL_STMT_FORI := 6
  PLPGSQL_STMT_FORS := 7
  PLPGSQL_STMT_FORC := 8
  PLPGSQL_STMT_EXIT := 10
  PLPGSQL_STMT_RETURN := 11
  PLPGSQL_STMT_RETURN_NEXT := 12
  PLPGSQL_STMT_RETURN_QUERY := 13
  PLPGSQL_STMT_RAISE := 14
  PLPGSQL_STMT_EXECSQL := 16
  PLPGSQL_STMT_DYNEXECUTE := 17
  PLPGSQL_STMT_DYNFORS := 18
  PLPGSQL_STMT_GETDIAG := 19
  PLPGSQL_STMT_OPEN := 20
  PLPGSQL_STMT_FETCH := 21
  PLPGSQL_STMT_CLOSE := 22
  PLPGSQL_STMT_PERFORM := 23

/-! ## GUC variables -/

/-- The five GUC flags of the module. -/
structure GUC where
  log_functions_log_declare : Bool
  log_functions_log_function_begin : Bool
  log_functions_log_function_end : Bool
  log_functions_log_statement_begin : Bool
  log_functions_log_statement_end : Bool
  deriving DecidableEq, Repr

/-- The static initialisers of the five flags (source lines 34 to 38). -/
def GUC.static_init : GUC where
  log_functions_log_declare := true
  log_functions_log_function_begin := true
  log_functions_log_function_end := true
  log_functions_log_statement_begin := false
  log_functions_log_statement_end := false

/-! ## Log sink, error exit and format expansion -/

/-- Severity levels used by the module. -/
inductive ErrorLevel where
  | LOG
  | ERROR
  deriving DecidableEq, Repr

/-- One line handed to the log sink. -/
structure LogLine where
  elevel : ErrorLevel
  message : String
  deriving DecidableEq, Repr

/-- Observable state of the backend: the lines written so far and the number
of system-cache lookups made so far. -/
structure Backend where
  log : List LogLine
  syscache_lookups : Nat
  deriving DecidableEq, Repr

/-- Result of running a piece of backend code: a normal return with a value,
or the non-local exit taken by `elog(ERROR, ...)`, with its message. -/
inductive Outcome (α : Type) where
  | returned (value : α) (b : Backend)
  | raised (message : String) (b : Backend)
  deriving DecidableEq, Repr

/-- Sequencing: the continuation runs only after a normal return. -/
def Outcome.bind {α β : Type} (o : Outcome α) (k : α → Backend → Outcome β) : Outcome β :=
  match o with
  | .returned v b => k v b
  | .raised m b => .raised m b

/-- Backend reached, whichever way the code was left. -/
def Outcome.backend {α : Type} : Outcome α → Backend
  | .returned _ b => b
  | .raised _ b => b

/-- An argument of a format string. -/
inductive FmtArg where
  | str (s : String)
  | int (d : Int)
  | uint (u : Nat)

/-- Text of one conversion applied to one argument, when they agree. -/
def conversion (c : Char) (arg : FmtArg) : Option (List Char) :=
  match arg with
  | .str s => if c = 's' then some s.toList else none
  | .int d => if c = 'd' then some (toString d).toList else none
  | .uint u => if c = 'u' then some (toString u).toList else none

/-- Expansion of a format string, character by character.  The flag says that
the previous character was a percent sign. -/
def expand : Bool → List Char → List FmtArg → List Char
  | _, [], _ => []
  | false, c :: rest, args =>
    if c = '%' then expand true rest args else c :: expand false rest args
  | true, c :: rest, [] => '%' :: c :: expand false rest []
  | true, c :: rest, a :: more =>
    match conversion c a with
    | some out => out ++ expand false rest more
    | none => '%' :: c :: expand false rest (a :: more)

/-- The message that `elog` builds from a format string and its arguments. -/
def format (fmt : String) (args : List FmtArg) : String :=
  String.mk (expand false fmt.toList args)

/-- Modelling `elog(LOG, fmt, ...)`: one line of severity `LOG` goes to the
sink and control returns. -/
def elog_LOG (fmt : String) (args : List FmtArg) (b : Backend) : Outcome Unit :=
  .returned () { b with log := b.log ++ [⟨ErrorLevel.LOG, format fmt args⟩] }

/-- Modelling `elog(ERROR, fmt, ...)`: control does not return to the caller;
the error travels to the host's handler, nothing is written here. -/
def elog_ERROR {α : Type} (fmt : String) (args : List FmtArg) (b : Backend) : Outcome α :=
  .raised (format fmt args) b

/-! ## Name resolution -/

/-- The `PROCOID` system cache: the routine name stored for an identifier. -/
abbrev SysCache := Oid → Option String

/-- One lookup in the system cache; the lookup is counted. -/
def SearchSysCache (cache : SysCache) (oid : Oid) (b : Backend) : Option String × Backend :=
  (cache oid, { b with syscache_lookups := b.syscache_lookups + 1 })

/-- Embedding of `findProcName` (source lines 152 to 166).  `ReleaseSysCache`
only drops the reference taken by the lookup; the name returned is the
`proname` of the tuple found. -/
def findProcName (cache : SysCache) (oid : Oid) (b : Backend) : Outcome String :=
  match SearchSysCache cache oid b with
  | (none, b1) => elog_ERROR "log_functions: cache lookup for proc %u failed" [.uint oid] b1
  | (some procName, b1) => .returned procName b1

/-! ## Statement-kind classification -/

/-- Embedding of `decode_stmt_type` (source lines 222 to 318): the switch,
case by case, over the initial value `"unknown"`. -/
def decode_stmt_type (K : StmtTypes) (typ : Int) : String :=
  if typ = K.PLPGSQL_STMT_BLOCK then "BLOCK"
  else if typ = K.PLPGSQL_STMT_ASSIGN then "ASSIGN"
  else if typ = K.PLPGSQL_STMT_PERFORM then "PERFORM"
  else if typ = K.PLPGSQL_STMT_GETDIAG then "GETDIAG"
  else if typ = K.PLPGSQL_STMT_IF then "IF"
  else if typ = K.PLPGSQL_STMT_CASE then "CASE"
  else if typ = K.PLPGSQL_STMT_LOOP then "LOOP"
  else if typ = K.PLPGSQL_STMT_WHILE then "WHILE"
  else if typ = K.PLPGSQL_STMT_FORI then "FORI"
  else if typ = K.PLPGSQL_STMT_FORS then "FORS"
  else if typ = K.PLPGSQL_STMT_FORC then "FORC"
  else if typ = K.PLPGSQL_STMT_EXIT then "EXIT"
  else if typ = K.PLPGSQL_STMT_RETURN then "RETURN"
  else if typ = K.PLPGSQL_STMT_RETURN_NEXT then "RETURN NEXT"
  else if typ = K.PLPGSQL_STMT_RETURN_QUERY then "RETURN QUERY"
  else if typ = K.PLPGSQL_STMT_RAISE then "RAISE"
  else if typ = K.PLPGSQL_STMT_EXECSQL then "EXEC SQL"
  else if typ = K.PLPGSQL_STMT_DYNEXECUTE then "DYNEXECUTE"
  else if typ = K.PLPGSQL_STMT_DYNFORS then "DYNFORS"
  else if typ = K.PLPGSQL_STMT_OPEN then "OPEN"
  else if typ = K.PLPGSQL_STMT_FETCH then "FETCH"
  else if typ = K.PLPGSQL_STMT_CLOSE then "CLOSE"
  else "unknown"

/-! ## The five lifecycle handlers

The `estate` argument of the C handlers is never read and is left out. -/

/-- Embedding of `profiler_init` (source lines 172 to 176). -/
def profiler_init (guc : GUC) (cache : SysCache) (func : PLpgSQL_function)
    (b : Backend) : Outcome Unit :=
  if guc.log_functions_log_declare then
    (findProcName cache func.fn_oid b).bind fun procName b1 =>
      elog_LOG "log_functions, DECLARE, %s" [.str procName] b1
  else .returned () b

/-- Embedding of `profiler_func_beg` (source lines 182 to 186). -/
def profiler_func_beg (guc : GUC) (cache : SysCache) (func : PLpgSQL_function)
    (b : Backend) : Outcome Unit :=
  if guc.log_functions_log_function_begin then
    (findProcName cache func.fn_oid b).bind fun procName b1 =>
      elog_LOG "log_functions, BEGIN, %s" [.str procName] b1
  else .returned () b

/-- Embedding of `profiler_func_end` (source lines 192 to 196). -/
def profiler_func_end (guc : GUC) (cache : SysCache) (func : PLpgSQL_function)
    (b : Backend) : Outcome Unit :=
  if guc.log_functions_log_function_end then
    (findProcName cache func.fn_oid b).bind fun procName b1 =>
      elog_LOG "log_functions, END, %s" [.str procName] b1
  else .returned () b

/-- Embedding of `profiler_stmt_beg` (source lines 202 to 206). -/
def profiler_stmt_beg (K : StmtTypes) (guc : GUC) (stmt : PLpgSQL_stmt)
    (b : Backend) : Outcome Unit :=
  if guc.log_functions_log_statement_begin then
    elog_LOG "log_functions, STMT START, line %d, type %s"
      [.int stmt.lineno, .str (decode_stmt_type K stmt.cmd_type)] b
  else .returned () b

/-- Embedding of `profiler_stmt_end` (source lines 212 to 216). -/
def profiler_stmt_end (K : StmtTypes) (guc : GUC) (stmt : PLpgSQL_stmt)
    (b : Backend) : Outcome Unit :=
  if guc.log_functions_log_statement_end then
    elog_LOG "log_functions, STMT STOP, line %d, type %s"
      [.int stmt.lineno, .str (decode_stmt_type K stmt.cmd_type)] b
  else .returned () b

/-! ## Registration -/

/-- Type of the routine-level entries of the hook record. -/
abbrev FuncHook := GUC → SysCache → PLpgSQL_function → Backend → Outcome Unit

/-- Type of the statement-level entries of the hook record. -/
abbrev StmtHook := StmtTypes → GUC → PLpgSQL_stmt → Backend → Outcome Unit

/-- The five entries of the host's hook record `PLpgSQL_plugin` that a plugin
fills in, in the order of the host's declaration. -/
structure PLpgSQL_plugin where
  func_setup : FuncHook
  func_beg : FuncHook
  func_end : FuncHook
  stmt_beg : StmtHook
  stmt_end : StmtHook

/-- Embedding of the static table `plugin_funcs` (source line 56), a
positional initialiser. -/
def plugin_funcs : PLpgSQL_plugin :=
  ⟨profiler_init, profiler_func_beg, profiler_func_end, profiler_stmt_beg, profiler_stmt_end⟩

/-- Embedding of `load_plugin` (source lines 139 to 146): five assignments
through the pointer, one after the other. -/
def load_plugin (hooks : PLpgSQL_plugin) : PLpgSQL_plugin :=
  let h1 := { hooks with func_setup := profiler_init }
  let h2 := { h1 with func_beg := profiler_func_beg }
  let h3 := { h2 with func_end := profiler_func_end }
  let h4 := { h3 with stmt_beg := profiler_stmt_beg }
  { h4 with stmt_end := profiler_stmt_end }

/-- The flag that a custom variable is bound to (its `valueAddr`). -/
inductive GucVar where
  | log_functions_log_declare
  | log_functions_log_function_begin
  | log_functions_log_function_end
  | log_functions_log_statement_begin
  | log_functions_log_statement_end
  deriving DecidableEq, Repr

/-- Value of the flag at an address. -/
def GUC.deref (g : GUC) : GucVar → Bool
  | .log_functions_log_declare => g.log_functions_log_declare
  | .log_functions_log_function_begin => g.log_functions_log_function_begin
  | .log_functions_log_function_end => g.log_functions_log_function_end
  | .log_functions_log_statement_begin => g.log_functions_log_statement_begin
  | .log_functions_log_statement_end => g.log_functions_log_statement_end

/-- What one call of `DefineCustomBoolVariable` hands to the configuration
subsystem: name, short description, bound flag and boot value. -/
structure CustomBoolVariable where
  name : String
  short_desc : String
  valueAddr : GucVar
  bootValue : Bool
  deriving DecidableEq, Repr

/-- The host registries that `_PG_init` writes to: the rendezvous variables,
by name, and the custom variables defined so far. -/
structure Registry where
  rendezvous : String → Option PLpgSQL_plugin
  custom_variables : List CustomBoolVariable

/-- Embedding of `_PG_init` (source lines 66 to 133): the table is published
in the rendezvous variable `"PLpgSQL_plugin"`, then the five custom boolean
variables are defined. -/
def _PG_init (r : Registry) : Registry where
  rendezvous := fun var => if var = "PLpgSQL_plugin" then some plugin_funcs else r.rendezvous var
  custom_variables := r.custom_variables ++
    [ ⟨"log_functions.log_declare", "Logs the start of the DECLARE block.",
        .log_functions_log_declare, true⟩,
      ⟨"log_functions.log_function_begin", "Logs the start of the BEGIN/END block.",
        .log_functions_log_function_begin, true⟩,
      ⟨"log_functions.log_function_end", "Logs the end of the BEGIN/END block.",
        .log_functions_log_function_end, true⟩,
      ⟨"log_functions.log_statement_begin", "Logs the start of a statement.",
        .log_functions_log_statement_begin, false⟩,
      ⟨"log_functions.log_statement_end", "Logs the end of a statement.",
        .log_functions_log_statement_end, false⟩ ]

/-- A registry in which nothing is registered yet. -/
def Registry.empty : Registry where
  rendezvous := fun _ => none
  custom_variables := []

/-! ## The host's call sequence

The host interpreter is not part of the module.  To state what a whole run
logs, the order in which the host calls the hooks is written down here: the
hooks are reached through the installed record. -/

/-- The host executes the statements of a body in order, calling `stmt_beg`
before and `stmt_end` after each of them. -/
def exec_stmts (hooks : PLpgSQL_plugin) (K : StmtTypes) (guc : GUC) :
    List PLpgSQL_stmt → Backend → Outcome Unit
  | [], b => .returned () b
  | stmt :: rest, b =>
    (hooks.stmt_beg K guc stmt b).bind fun _ b1 =>
      (hooks.stmt_end K guc stmt b1).bind fun _ b2 =>
        exec_stmts hooks K guc rest b2

/-- One routine invocation: `func_setup`, `func_beg`, the statements, then
`func_end`. -/
def exec_function (hooks : PLpgSQL_plugin) (K : StmtTypes) (guc : GUC) (cache : SysCache)
    (func : PLpgSQL_function) (body : List PLpgSQL_stmt) (b : Backend) : Outcome Unit :=
  (hooks.func_setup guc cache func b).bind fun _ b1 =>
    (hooks.func_beg guc cache func b1).bind fun _ b2 =>
      (exec_stmts hooks K guc body b2).bind fun _ b3 =>
        hooks.func_end guc cache func b3

/-- Lines of a run as the documentation lists them: `DECLARE` if enabled,
`BEGIN` if enabled, per statement `STMT START` then `STMT STOP` as enabled,
then `END` if enabled. -/
def expected_stmt_lines (K : StmtTypes) (guc : GUC) : List PLpgSQL_stmt → List LogLine
  | [] => []
  | stmt :: rest =>
    (if guc.log_functions_log_statement_begin then
      [⟨ErrorLevel.LOG, "log_functions, STMT START, line " ++ toString stmt.lineno ++ ", type "
        ++ decode_stmt_type K stmt.cmd_type⟩] else []) ++
    (if guc.log_functions_log_statement_end then
      [⟨ErrorLevel.LOG, "log_functions, STMT STOP, line " ++ toString stmt.lineno ++ ", type "
        ++ decode_stmt_type K stmt.cmd_type⟩] else []) ++
    expected_stmt_lines K guc rest

/-- The documented log of one routine invocation. -/
def expected_log (K : StmtTypes) (guc : GUC) (name : String) (body : List PLpgSQL_stmt) :
    List LogLine :=
  (if guc.log_functions_log_declare then [⟨ErrorLevel.LOG, "log_functions, DECLARE, " ++ name⟩] else []) ++
  (if guc.log_functions_log_function_begin then [⟨ErrorLevel.LOG, "log_functions, BEGIN, " ++ name⟩] else []) ++
  expected_stmt_lines K guc body ++
  (if guc.log_functions_log_function_end then [⟨ErrorLevel.LOG, "log_functions, END, " ++ name⟩] else [])

/-- A catalog that holds the single routine 16384, `compute_total`. -/
def sampleCache : SysCache := fun oid => if oid = 16384 then some "compute_total" else none

/-- A backend that has logged nothing and looked nothing up. -/
def Backend.fresh : Backend := ⟨[], 0⟩

/-! ## The switch read as a table -/

/-- The case labels of the switch paired with the string assigned under each,
in source order. -/
def stmt_type_table (K : StmtTypes) : List (Int × String) :=
  [(K.PLPGSQL_STMT_BLOCK, "BLOCK"), (K.PLPGSQL_STMT_ASSIGN, "ASSIGN"),
   (K.PLPGSQL_STMT_PERFORM, "PERFORM"), (K.PLPGSQL_STMT_GETDIAG, "GETDIAG"),
   (K.PLPGSQL_STMT_IF, "IF"), (K.PLPGSQL_STMT_CASE, "CASE"),
   (K.PLPGSQL_STMT_LOOP, "LOOP"), (K.PLPGSQL_STMT_WHILE, "WHILE"),
   (K.PLPGSQL_STMT_FORI, "FORI"), (K.PLPGSQL_STMT_FORS, "FORS"),
   (K.PLPGSQL_STMT_FORC, "FORC"), (K.PLPGSQL_STMT_EXIT, "EXIT"),
   (K.PLPGSQL_STMT_RETURN, "RETURN"), (K.PLPGSQL_STMT_RETURN_NEXT, "RETURN NEXT"),
   (K.PLPGSQL_STMT_RETURN_QUERY, "RETURN QUERY"), (K.PLPGSQL_STMT_RAISE, "RAISE"),
   (K.PLPGSQL_STMT_EXECSQL, "EXEC SQL"), (K.PLPGSQL_STMT_DYNEXECUTE, "DYNEXECUTE"),
   (K.PLPGSQL_STMT_DYNFORS, "DYNFORS"), (K.PLPGSQL_STMT_OPEN, "OPEN"),
   (K.PLPGSQL_STMT_FETCH, "FETCH"), (K.PLPGSQL_STMT_CLOSE, "CLOSE")]

/-- The 22 strings assigned in the switch, in source order. -/
def known_labels : List String :=
  ["BLOCK", "ASSIGN", "PERFORM", "GETDIAG", "IF", "CASE", "LOOP", "WHILE", "FORI", "FORS",
   "FORC", "EXIT", "RETURN", "RETURN NEXT", "RETURN QUERY", "RAISE", "EXEC SQL", "DYNEXECUTE",
   "DYNFORS", "OPEN", "FETCH", "CLOSE"]

/-- First entry of a table whose key is the scrutinee, else the default. -/
def switch_lookup (typ : Int) (dflt : String) : List (Int × String) → String
  | [] => dflt
  | (k, v) :: rest => if typ = k then v else switch_lookup typ dflt rest

/-! ## Format expansion of the six format strings of the source -/

theorem format_DECLARE (s : String) :
    format "log_functions, DECLARE, %s" [.str s] = "log_functions, DECLARE, " ++ s := by
  apply String.ext
  simp [format, expand, conversion]

theorem format_BEGIN (s : String) :
    format "log_functions, BEGIN, %s" [.str s] = "log_functions, BEGIN, " ++ s := by
  apply String.ext
  simp [format, expand, conversion]

theorem format_END (s : String) :
    format "log_functions, END, %s" [.str s] = "log_functions, END, " ++ s := by
  apply String.ext
  simp [format, expand, conversion]

theorem format_STMT_START (n : Int) (s : String) :
    format "log_functions, STMT START, line %d, type %s" [.int n, .str s]
      = "log_functions, STMT START, line " ++ toString n ++ ", type " ++ s := by
  apply String.ext
  simp [format, expand, conversion]

theorem format_STMT_STOP (n : Int) (s : String) :
    format "log_functions, STMT STOP, line %d, type %s" [.int n, .str s]
      = "log_functions, STMT STOP, line " ++ toString n ++ ", type " ++ s := by
  apply String.ext
  simp [format, expand, conversion]

theorem format_lookup_failed (oid : Nat) :
    format "log_functions: cache lookup for proc %u failed" [.uint oid]
      = "log_functions: cache lookup for proc " ++ toString oid ++ " failed" := by
  apply String.ext
  simp [format, expand, conversion]

/-! ## Name resolution, case by case -/

theorem findProcName_found (cache : SysCache) (oid : Oid) (b : Backend) (name : String)
    (h : cache oid = some name) :
    findProcName cache oid b
      = .returned name { b with syscache_lookups := b.syscache_lookups + 1 } := by
  simp [findProcName, SearchSysCache, h]

theorem findProcName_missing (cache : SysCache) (oid : Oid) (b : Backend)
    (h : cache oid = none) :
    findProcName cache oid b
      = .raised ("log_functions: cache lookup for proc " ++ toString oid ++ " failed")
          { b with syscache_lookups := b.syscache_lookups + 1 } := by
  simp [findProcName, SearchSysCache, h, elog_ERROR, format_lookup_failed]

/-! ## The handlers, case by case -/

theorem profiler_init_off (guc : GUC) (cache : SysCache) (func : PLpgSQL_function) (b : Backend)
    (h : guc.log_functions_log_declare = false) :
    profiler_init guc cache func b = .returned () b := by
  simp [profiler_init, h]

theorem profiler_func_beg_off (guc : GUC) (cache : SysCache) (func : PLpgSQL_function)
    (b : Backend) (h : guc.log_functions_log_function_begin = false) :
    profiler_func_beg guc cache func b = .returned () b := by
  simp [profiler_func_beg, h]

theorem profiler_func_end_off (guc : GUC) (cache : SysCache) (func : PLpgSQL_function)
    (b : Backend) (h : guc.log_functions_log_function_end = false) :
    profiler_func_end guc cache func b = .returned () b := by
  simp [profiler_func_end, h]

theorem profiler_stmt_beg_off (K : StmtTypes) (guc : GUC) (stmt : PLpgSQL_stmt) (b : Backend)
    (h : guc.log_functions_log_statement_begin = false) :
    profiler_stmt_beg K guc stmt b = .returned () b := by
  simp [profiler_stmt_beg, h]

theorem profiler_stmt_end_off (K : StmtTypes) (guc : GUC) (stmt : PLpgSQL_stmt) (b : Backend)
    (h : guc.log_functions_log_statement_end = false) :
    profiler_stmt_end K guc stmt b = .returned () b := by
  simp [profiler_stmt_end, h]

theorem profiler_init_on (guc : GUC) (cache : SysCache) (func : PLpgSQL_function) (b : Backend)
    (name : String) (h : guc.log_functions_log_declare = true)
    (hn : cache func.fn_oid = some name) :
    profiler_init guc cache func b
      = .returned () ⟨b.log ++ [⟨ErrorLevel.LOG, "log_functions, DECLARE, " ++ name⟩],
          b.syscache_lookups + 1⟩ := by
  simp [profiler_init, h, findProcName_found cache func.fn_oid b name hn, Outcome.bind,
    elog_LOG, format_DECLARE]

theorem profiler_func_beg_on (guc : GUC) (cache : SysCache) (func : PLpgSQL_function)
    (b : Backend) (name : String) (h : guc.log_functions_log_function_begin = true)
    (hn : cache func.fn_oid = some name) :
    profiler_func_beg guc cache func b
      = .returned () ⟨b.log ++ [⟨ErrorLevel.LOG, "log_functions, BEGIN, " ++ name⟩],
          b.syscache_lookups + 1⟩ := by
  simp [profiler_func_beg, h, findProcName_found cache func.fn_oid b name hn, Outcome.bind,
    elog_LOG, format_BEGIN]

theorem profiler_func_end_on (guc : GUC) (cache : SysCache) (func : PLpgSQL_function)
    (b : Backend) (name : String) (h : guc.log_functions_log_function_end = true)
    (hn : cache func.fn_oid = some name) :
    profiler_func_end guc cache func b
      = .returned () ⟨b.log ++ [⟨ErrorLevel.LOG, "log_functions, END, " ++ name⟩],
          b.syscache_lookups + 1⟩ := by
  simp [profiler_func_end, h, findProcName_found cache func.fn_oid b name hn, Outcome.bind,
    elog_LOG, format_END]

theorem profiler_stmt_beg_on (K : StmtTypes) (guc : GUC) (stmt : PLpgSQL_stmt) (b : Backend)
    (h : guc.log_functions_log_statement_begin = true) :
    profiler_stmt_beg K guc stmt b
      = .returned () ⟨b.log ++ [⟨ErrorLevel.LOG, "log_functions, STMT START, line "
          ++ toString stmt.lineno ++ ", type " ++ decode_stmt_type K stmt.cmd_type⟩],
          b.syscache_lookups⟩ := by
  simp [profiler_stmt_beg, h, elog_LOG, format_STMT_START]

theorem profiler_stmt_end_on (K : StmtTypes) (guc : GUC) (stmt : PLpgSQL_stmt) (b : Backend)
    (h : guc.log_functions_log_statement_end = true) :
    profiler_stmt_end K guc stmt b
      = .returned () ⟨b.log ++ [⟨ErrorLevel.LOG, "log_functions, STMT STOP, line "
          ++ toString stmt.lineno ++ ", type " ++ decode_stmt_type K stmt.cmd_type⟩],
          b.syscache_lookups⟩ := by
  simp [profiler_stmt_end, h, elog_LOG, format_STMT_STOP]

theorem profiler_init_missing (guc : GUC) (cache : SysCache) (func : PLpgSQL_function)
    (b : Backend) (h : guc.log_functions_log_declare = true) (hn : cache func.fn_oid = none) :
    profiler_init guc cache func b
      = .raised ("log_functions: cache lookup for proc " ++ toString func.fn_oid ++ " failed")
          ⟨b.log, b.syscache_lookups + 1⟩ := by
  simp [profiler_init, h, findProcName_missing cache func.fn_oid b hn, Outcome.bind]

theorem profiler_func_beg_missing (guc : GUC) (cache : SysCache) (func : PLpgSQL_function)
    (b : Backend) (h : guc.log_functions_log_function_begin = true)
    (hn : cache func.fn_oid = none) :
    profiler_func_beg guc cache func b
      = .raised ("log_functions: cache lookup for proc " ++ toString func.fn_oid ++ " failed")
          ⟨b.log, b.syscache_lookups + 1⟩ := by
  simp [profiler_func_beg, h, findProcName_missing cache func.fn_oid b hn, Outcome.bind]

theorem profiler_func_end_missing (guc : GUC) (cache : SysCache) (func : PLpgSQL_function)
    (b : Backend) (h : guc.log_functions_log_function_end = true)
    (hn : cache func.fn_oid = none) :
    profiler_func_end guc cache func b
      = .raised ("log_functions: cache lookup for proc " ++ toString func.fn_oid ++ " failed")
          ⟨b.log, b.syscache_lookups + 1⟩ := by
  simp [profiler_func_end, h, findProcName_missing cache func.fn_oid b hn, Outcome.bind]

/-! ## Severity of whatever a handler adds -/

theorem profiler_init_adds_LOG (guc : GUC) (cache : SysCache) (func : PLpgSQL_function)
    (b : Backend) :
    ∃ added, (profiler_init guc cache func b).backend.log = b.log ++ added ∧
      ∀ l ∈ added, l.elevel = ErrorLevel.LOG := by
  cases h : guc.log_functions_log_declare
  · exact ⟨[], by simp [profiler_init_off guc cache func b h, Outcome.backend], by simp⟩
  · cases hn : cache func.fn_oid with
    | none =>
      exact ⟨[], by simp [profiler_init_missing guc cache func b h hn, Outcome.backend], by simp⟩
    | some name =>
      exact ⟨_, by rw [profiler_init_on guc cache func b name h hn]; rfl, by simp⟩

theorem profiler_func_beg_adds_LOG (guc : GUC) (cache : SysCache) (func : PLpgSQL_function)
    (b : Backend) :
    ∃ added, (profiler_func_beg guc cache func b).backend.log = b.log ++ added ∧
      ∀ l ∈ added, l.elevel = ErrorLevel.LOG := by
  cases h : guc.log_functions_log_function_begin
  · exact ⟨[], by simp [profiler_func_beg_off guc cache func b h, Outcome.backend], by simp⟩
  · cases hn : cache func.fn_oid with
    | none =>
      exact ⟨[], by simp [profiler_func_beg_missing guc cache func b h hn, Outcome.backend],
        by simp⟩
    | some name =>
      exact ⟨_, by rw [profiler_func_beg_on guc cache func b name h hn]; rfl, by simp⟩

theorem profiler_func_end_adds_LOG (guc : GUC) (cache : SysCache) (func : PLpgSQL_function)
    (b : Backend) :
    ∃ added, (profiler_func_end guc cache func b).backend.log = b.log ++ added ∧
      ∀ l ∈ added, l.elevel = ErrorLevel.LOG := by
  cases h : guc.log_functions_log_function_end
  · exact ⟨[], by simp [profiler_func_end_off guc cache func b h, Outcome.backend], by simp⟩
  · cases hn : cache func.fn_oid with
    | none =>
      exact ⟨[], by simp [profiler_func_end_missing guc cache func b h hn, Outcome.backend],
        by simp⟩
    | some name =>
      exact ⟨_, by rw [profiler_func_end_on guc cache func b name h hn]; rfl, by simp⟩

theorem profiler_stmt_beg_adds_LOG (K : StmtTypes) (guc : GUC) (stmt : PLpgSQL_stmt)
    (b : Backend) :
    ∃ added, (profiler_stmt_beg K guc stmt b).backend.log = b.log ++ added ∧
      ∀ l ∈ added, l.elevel = ErrorLevel.LOG := by
  cases h : guc.log_functions_log_statement_begin
  · exact ⟨[], by simp [profiler_stmt_beg_off K guc stmt b h, Outcome.backend], by simp⟩
  · exact ⟨_, by rw [profiler_stmt_beg_on K guc stmt b h]; rfl, by simp⟩

theorem profiler_stmt_end_adds_LOG (K : StmtTypes) (guc : GUC) (stmt : PLpgSQL_stmt)
    (b : Backend) :
    ∃ added, (profiler_stmt_end K guc stmt b).backend.log = b.log ++ added ∧
      ∀ l ∈ added, l.elevel = ErrorLevel.LOG := by
  cases h : guc.log_functions_log_statement_end
  · exact ⟨[], by simp [profiler_stmt_end_off K guc stmt b h, Outcome.backend], by simp⟩
  · exact ⟨_, by rw [profiler_stmt_end_on K guc stmt b h]; rfl, by simp⟩


/-! ## Classification through the table -/

theorem decode_stmt_type_eq_lookup (K : StmtTypes) (typ : Int) :
    decode_stmt_type K typ = switch_lookup typ "unknown" (stmt_type_table K) := by
  simp only [decode_stmt_type, stmt_type_table, switch_lookup]

theorem stmt_type_table_keys (K : StmtTypes) : (stmt_type_table K).map Prod.fst = K.known := rfl

theorem stmt_type_table_labels (K : StmtTypes) :
    (stmt_type_table K).map Prod.snd = known_labels := rfl

theorem switch_lookup_default_or_mem (typ : Int) (dflt : String) (t : List (Int × String)) :
    switch_lookup typ dflt t = dflt ∨ switch_lookup typ dflt t ∈ t.map Prod.snd := by
  induction t with
  | nil => left; rfl
  | cons p rest ih =>
    obtain ⟨k, v⟩ := p
    by_cases hk : typ = k
    · right; simp [switch_lookup, hk]
    · rcases ih with h | h
      · left; simp [switch_lookup, hk, h]
      · right; simp only [switch_lookup, hk, if_false, List.map_cons, List.mem_cons]
        exact Or.inr h

theorem switch_lookup_of_not_mem (typ : Int) (dflt : String) (t : List (Int × String))
    (h : typ ∉ t.map Prod.fst) : switch_lookup typ dflt t = dflt := by
  induction t with
  | nil => rfl
  | cons p rest ih =>
    obtain ⟨k, v⟩ := p
    simp only [List.map_cons, List.mem_cons, not_or] at h
    simp [switch_lookup, h.1, ih h.2]

theorem switch_lookup_of_mem (k : Int) (v dflt : String) (t : List (Int × String))
    (hnd : (t.map Prod.fst).Nodup) (hm : (k, v) ∈ t) : switch_lookup k dflt t = v := by
  induction t with
  | nil => simp at hm
  | cons p rest ih =>
    obtain ⟨k1, v1⟩ := p
    simp only [List.map_cons, List.nodup_cons] at hnd
    rcases List.mem_cons.mp hm with h | h
    · cases h; simp [switch_lookup]
    · have hne : k ≠ k1 := by
        intro he
        exact hnd.1 (he ▸ List.mem_map_of_mem Prod.fst h)
      simp [switch_lookup, hne, ih hnd.2 h]

theorem switch_lookup_mem_of_key (k : Int) (dflt : String) (t : List (Int × String))
    (hnd : (t.map Prod.fst).Nodup) (hk : k ∈ t.map Prod.fst) :
    (k, switch_lookup k dflt t) ∈ t := by
  obtain ⟨p, hp, rfl⟩ := List.mem_map.mp hk
  obtain ⟨k1, v1⟩ := p
  rw [switch_lookup_of_mem k1 v1 dflt t hnd hp]
  exact hp

theorem decode_stmt_type_mem_table (K : StmtTypes) (h : K.known.Nodup) (typ : Int)
    (hk : typ ∈ K.known) : (typ, decode_stmt_type K typ) ∈ stmt_type_table K := by
  rw [decode_stmt_type_eq_lookup]
  exact switch_lookup_mem_of_key typ "unknown" _ (by rw [stmt_type_table_keys]; exact h)
    (by rw [stmt_type_table_keys]; exact hk)

theorem decode_stmt_type_mem_labels (K : StmtTypes) (h : K.known.Nodup) (typ : Int)
    (hk : typ ∈ K.known) : decode_stmt_type K typ ∈ known_labels := by
  rw [← stmt_type_table_labels K]
  exact List.mem_map_of_mem Prod.snd (decode_stmt_type_mem_table K h typ hk)

theorem decode_stmt_type_of_entry (K : StmtTypes) (h : K.known.Nodup) (k : Int) (v : String)
    (hm : (k, v) ∈ stmt_type_table K) : decode_stmt_type K k = v := by
  rw [decode_stmt_type_eq_lookup]
  exact switch_lookup_of_mem k v "unknown" _ (by rw [stmt_type_table_keys]; exact h) hm

theorem known_labels_nodup : known_labels.Nodup := by decide

theorem known_labels_upper : ∀ l ∈ known_labels, ∀ c ∈ l.toList, c.isLower = false := by decide

theorem known_labels_ne_unknown : "unknown" ∉ known_labels := by decide

theorem known_labels_ne_empty : "" ∉ known_labels := by decide


/-! ## Statement-kind classification: the claims -/

/-- C2: `decode_stmt_type` is total and equals the documented table with a
fallback.  For every integer code the label returned is not empty; each of the
22 known codes `PLPGSQL_STMT_X` maps to the label documented for `X` (with
`RETURN NEXT`, `RETURN QUERY` and `EXEC SQL` written with a blank); every
integer that is not one of the 22 known codes maps to `"unknown"`. -/
theorem decode_stmt_type_total_table (K : StmtTypes) (h : K.known.Nodup) :
    (∀ typ : Int, decode_stmt_type K typ ≠ "") ∧
    (decode_stmt_type K K.PLPGSQL_STMT_BLOCK = "BLOCK" ∧
     decode_stmt_type K K.PLPGSQL_STMT_ASSIGN = "ASSIGN" ∧
     decode_stmt_type K K.PLPGSQL_STMT_PERFORM = "PERFORM" ∧
     decode_stmt_type K K.PLPGSQL_STMT_GETDIAG = "GETDIAG" ∧
     decode_stmt_type K K.PLPGSQL_STMT_IF = "IF" ∧
     decode_stmt_type K K.PLPGSQL_STMT_CASE = "CASE" ∧
     decode_stmt_type K K.PLPGSQL_STMT_LOOP = "LOOP" ∧
     decode_stmt_type K K.PLPGSQL_STMT_WHILE = "WHILE" ∧
     decode_stmt_type K K.PLPGSQL_STMT_FORI = "FORI" ∧
     decode_stmt_type K K.PLPGSQL_STMT_FORS = "FORS" ∧
     decode_stmt_type K K.PLPGSQL_STMT_FORC = "FORC" ∧
     decode_stmt_type K K.PLPGSQL_STMT_EXIT = "EXIT" ∧
     decode_stmt_type K K.PLPGSQL_STMT_RETURN = "RETURN" ∧
     decode_stmt_type K K.PLPGSQL_STMT_RETURN_NEXT = "RETURN NEXT" ∧
     decode_stmt_type K K.PLPGSQL_STMT_RETURN_QUERY = "RETURN QUERY" ∧
     decode_stmt_type K K.PLPGSQL_STMT_RAISE = "RAISE" ∧
     decode_stmt_type K K.PLPGSQL_STMT_EXECSQL = "EXEC SQL" ∧
     decode_stmt_type K K.PLPGSQL_STMT_DYNEXECUTE = "DYNEXECUTE" ∧
     decode_stmt_type K K.PLPGSQL_STMT_DYNFORS = "DYNFORS" ∧
     decode_stmt_type K K.PLPGSQL_STMT_OPEN = "OPEN" ∧
     decode_stmt_type K K.PLPGSQL_STMT_FETCH = "FETCH" ∧
     decode_stmt_type K K.PLPGSQL_STMT_CLOSE = "CLOSE") ∧
    (∀ typ : Int, typ ∉ K.known → decode_stmt_type K typ = "unknown") := by
  refine ⟨?_, ?_, ?_⟩
  · intro typ he
    rw [decode_stmt_type_eq_lookup] at he
    rcases switch_lookup_default_or_mem typ "unknown" (stmt_type_table K) with hd | hm
    · rw [hd] at he
      exact absurd he (by decide)
    · rw [stmt_type_table_labels, he] at hm
      exact known_labels_ne_empty hm
  · refine ⟨?_, ?_, ?_, ?_, ?_, ?_, ?_, ?_, ?_, ?_, ?_, ?_, ?_, ?_, ?_, ?_, ?_, ?_, ?_, ?_, ?_, ?_⟩
    · exact decode_stmt_type_of_entry K h _ _ (by simp [stmt_type_table])
    · exact decode_stmt_type_of_entry K h _ _ (by simp [stmt_type_table])
    · exact decode_stmt_type_of_entry K h _ _ (by simp [stmt_type_table])
    · exact decode_stmt_type_of_entry K h _ _ (by simp [stmt_type_table])
    · exact decode_stmt_type_of_entry K h _ _ (by simp [stmt_type_table])
    · exact decode_stmt_type_of_entry K h _ _ (by simp [stmt_type_table])
    · exact decode_stmt_type_of_entry K h _ _ (by simp [stmt_type_table])
    · exact decode_stmt_type_of_entry K h _ _ (by simp [stmt_type_table])
    · exact decode_stmt_type_of_entry K h _ _ (by simp [stmt_type_table])
    · exact decode_stmt_type_of_entry K h _ _ (by simp [stmt_type_table])
    · exact decode_stmt_type_of_entry K h _ _ (by simp [stmt_type_table])
    · exact decode_stmt_type_of_entry K h _ _ (by simp [stmt_type_table])
    · exact decode_stmt_type_of_entry K h _ _ (by simp [stmt_type_table])
    · exact decode_stmt_type_of_entry K h _ _ (by simp [stmt_type_table])
    · exact decode_stmt_type_of_entry K h _ _ (by simp [stmt_type_table])
    · exact decode_stmt_type_of_entry K h _ _ (by simp [stmt_type_table])
    · exact decode_stmt_type_of_entry K h _ _ (by simp [stmt_type_table])
    · exact decode_stmt_type_of_entry K h _ _ (by simp [stmt_type_table])
    · exact decode_stmt_type_of_entry K h _ _ (by simp [stmt_type_table])
    · exact decode_stmt_type_of_entry K h _ _ (by simp [stmt_type_table])
    · exact decode_stmt_type_of_entry K h _ _ (by simp [stmt_type_table])
    · exact decode_stmt_type_of_entry K h _ _ (by simp [stmt_type_table])
  · intro typ hk
    rw [decode_stmt_type_eq_lookup]
    exact switch_lookup_of_not_mem typ "unknown" _ (by rw [stmt_type_table_keys]; exact hk)

/-- Witness of C2 on the sample enumeration: the codes -1, 9999 and 9 (a
member the switch does not name) are unknown, 1 and 12 are known. -/
theorem decode_stmt_type_total_table_witness :
    sampleStmtTypes.known.Nodup ∧
    decode_stmt_type sampleStmtTypes (-1) = "unknown" ∧
    decode_stmt_type sampleStmtTypes 9999 = "unknown" ∧
    decode_stmt_type sampleStmtTypes 9 = "unknown" ∧
    decode_stmt_type sampleStmtTypes sampleStmtTypes.PLPGSQL_STMT_ASSIGN = "ASSIGN" ∧
    decode_stmt_type sampleStmtTypes 12 ≠ "" :=
  ⟨by decide,
   (decode_stmt_type_total_table sampleStmtTypes (by decide)).2.2 (-1) (by decide),
   (decode_stmt_type_total_table sampleStmtTypes (by decide)).2.2 9999 (by decide),
   (decode_stmt_type_total_table sampleStmtTypes (by decide)).2.2 9 (by decide),
   (decode_stmt_type_total_table sampleStmtTypes (by decide)).2.1.2.1,
   (decode_stmt_type_total_table sampleStmtTypes (by decide)).1 12⟩

/-- C10: `decode_stmt_type` is injective on the known statement kinds and
keeps them apart from the fallback.  Two distinct known codes have different
labels (so `FORI` differs from `LOOP`), no character of a known label is a
lowercase letter, and no known code maps to `"unknown"`. -/
theorem decode_stmt_type_injective_on_known (K : StmtTypes) (h : K.known.Nodup) :
    (∀ a ∈ K.known, ∀ b ∈ K.known, a ≠ b → decode_stmt_type K a ≠ decode_stmt_type K b) ∧
    decode_stmt_type K K.PLPGSQL_STMT_FORI ≠ decode_stmt_type K K.PLPGSQL_STMT_LOOP ∧
    (∀ a ∈ K.known, ∀ c ∈ (decode_stmt_type K a).toList, c.isLower = false) ∧
    (∀ a ∈ K.known, decode_stmt_type K a ≠ "unknown") := by
  refine ⟨?_, ?_, ?_, ?_⟩
  · intro a ha b hb hab he
    have hlab : ((stmt_type_table K).map Prod.snd).Nodup := by
      rw [stmt_type_table_labels]; exact known_labels_nodup
    have hpair := List.inj_on_of_nodup_map hlab (decode_stmt_type_mem_table K h a ha)
      (decode_stmt_type_mem_table K h b hb) he
    exact hab (congrArg Prod.fst hpair)
  · rw [decode_stmt_type_of_entry K h K.PLPGSQL_STMT_FORI "FORI" (by simp [stmt_type_table]),
      decode_stmt_type_of_entry K h K.PLPGSQL_STMT_LOOP "LOOP" (by simp [stmt_type_table])]
    decide
  · intro a ha
    exact known_labels_upper _ (decode_stmt_type_mem_labels K h a ha)
  · intro a ha he
    have hm := decode_stmt_type_mem_labels K h a ha
    rw [he] at hm
    exact known_labels_ne_unknown hm

/-- Witness of C10 on the sample enumeration. -/
theorem decode_stmt_type_injective_on_known_witness :
    sampleStmtTypes.known.Nodup ∧
    decode_stmt_type sampleStmtTypes 6 ≠ decode_stmt_type sampleStmtTypes 4 ∧
    decode_stmt_type sampleStmtTypes 16 ≠ "unknown" ∧
    (∀ c ∈ (decode_stmt_type sampleStmtTypes 13).toList, c.isLower = false) :=
  ⟨by decide,
   (decode_stmt_type_injective_on_known sampleStmtTypes (by decide)).1 6 (by decide) 4
     (by decide) (by decide),
   (decode_stmt_type_injective_on_known sampleStmtTypes (by decide)).2.2.2 16 (by decide),
   (decode_stmt_type_injective_on_known sampleStmtTypes (by decide)).2.2.1 13 (by decide)⟩


/-! ## Gating and text of the handlers: the claims -/

/-- C1: for every setting of the five toggles and for each of the five
handlers, one invocation emits exactly one log line when the handler's own
toggle is on (the routine name resolving, for the three routine-level
handlers), and when its own toggle is off it does nothing at all: the backend
is unchanged, so there is no log line and no name lookup.  Two settings that
agree on a handler's own toggle give the same result for that handler. -/
theorem handlers_gate_on_own_toggle (K : StmtTypes) (guc : GUC) (cache : SysCache)
    (func : PLpgSQL_function) (stmt : PLpgSQL_stmt) (b : Backend) :
    ((guc.log_functions_log_declare = true → ∀ name, cache func.fn_oid = some name →
        ∃ line, profiler_init guc cache func b
          = .returned () ⟨b.log ++ [line], b.syscache_lookups + 1⟩) ∧
     (guc.log_functions_log_function_begin = true → ∀ name, cache func.fn_oid = some name →
        ∃ line, profiler_func_beg guc cache func b
          = .returned () ⟨b.log ++ [line], b.syscache_lookups + 1⟩) ∧
     (guc.log_functions_log_function_end = true → ∀ name, cache func.fn_oid = some name →
        ∃ line, profiler_func_end guc cache func b
          = .returned () ⟨b.log ++ [line], b.syscache_lookups + 1⟩) ∧
     (guc.log_functions_log_statement_begin = true →
        ∃ line, profiler_stmt_beg K guc stmt b
          = .returned () ⟨b.log ++ [line], b.syscache_lookups⟩) ∧
     (guc.log_functions_log_statement_end = true →
        ∃ line, profiler_stmt_end K guc stmt b
          = .returned () ⟨b.log ++ [line], b.syscache_lookups⟩)) ∧
    ((guc.log_functions_log_declare = false →
        profiler_init guc cache func b = .returned () b) ∧
     (guc.log_functions_log_function_begin = false →
        profiler_func_beg guc cache func b = .returned () b) ∧
     (guc.log_functions_log_function_end = false →
        profiler_func_end guc cache func b = .returned () b) ∧
     (guc.log_functions_log_statement_begin = false →
        profiler_stmt_beg K guc stmt b = .returned () b) ∧
     (guc.log_functions_log_statement_end = false →
        profiler_stmt_end K guc stmt b = .returned () b)) ∧
    (∀ guc2 : GUC,
     (guc2.log_functions_log_declare = guc.log_functions_log_declare →
        profiler_init guc2 cache func b = profiler_init guc cache func b) ∧
     (guc2.log_functions_log_function_begin = guc.log_functions_log_function_begin →
        profiler_func_beg guc2 cache func b = profiler_func_beg guc cache func b) ∧
     (guc2.log_functions_log_function_end = guc.log_functions_log_function_end →
        profiler_func_end guc2 cache func b = profiler_func_end guc cache func b) ∧
     (guc2.log_functions_log_statement_begin = guc.log_functions_log_statement_begin →
        profiler_stmt_beg K guc2 stmt b = profiler_stmt_beg K guc stmt b) ∧
     (guc2.log_functions_log_statement_end = guc.log_functions_log_statement_end →
        profiler_stmt_end K guc2 stmt b = profiler_stmt_end K guc stmt b)) := by
  refine ⟨⟨?_, ?_, ?_, ?_, ?_⟩, ⟨?_, ?_, ?_, ?_, ?_⟩, ?_⟩
  · intro h name hn
    exact ⟨_, profiler_init_on guc cache func b name h hn⟩
  · intro h name hn
    exact ⟨_, profiler_func_beg_on guc cache func b name h hn⟩
  · intro h name hn
    exact ⟨_, profiler_func_end_on guc cache func b name h hn⟩
  · intro h
    exact ⟨_, profiler_stmt_beg_on K guc stmt b h⟩
  · intro h
    exact ⟨_, profiler_stmt_end_on K guc stmt b h⟩
  · exact profiler_init_off guc cache func b
  · exact profiler_func_beg_off guc cache func b
  · exact profiler_func_end_off guc cache func b
  · exact profiler_stmt_beg_off K guc stmt b
  · exact profiler_stmt_end_off K guc stmt b
  · intro guc2
    refine ⟨?_, ?_, ?_, ?_, ?_⟩
    · intro h; simp only [profiler_init, h]
    · intro h; simp only [profiler_func_beg, h]
    · intro h; simp only [profiler_func_end, h]
    · intro h; simp only [profiler_stmt_beg, h]
    · intro h; simp only [profiler_stmt_end, h]

/-- Witness of C1: with only the statement-begin toggle off, on the sample
catalog, `profiler_func_beg` adds one line and `profiler_stmt_beg` leaves the
backend as it was. -/
theorem handlers_gate_on_own_toggle_witness :
    (∃ line, profiler_func_beg ⟨true, true, true, false, true⟩ sampleCache ⟨16384⟩ Backend.fresh
        = .returned () ⟨Backend.fresh.log ++ [line], Backend.fresh.syscache_lookups + 1⟩) ∧
    profiler_stmt_beg sampleStmtTypes ⟨true, true, true, false, true⟩ ⟨1, 12⟩ Backend.fresh
        = .returned () Backend.fresh :=
  ⟨(handlers_gate_on_own_toggle sampleStmtTypes ⟨true, true, true, false, true⟩ sampleCache
      ⟨16384⟩ ⟨1, 12⟩ Backend.fresh).1.2.1 rfl "compute_total" (by decide),
   (handlers_gate_on_own_toggle sampleStmtTypes ⟨true, true, true, false, true⟩ sampleCache
      ⟨16384⟩ ⟨1, 12⟩ Backend.fresh).2.1.2.2.2.1 rfl⟩

/-- C3: every line the tracer emits has the documented text and the severity
`LOG`.  For a routine whose name resolves to `s` the enabled declare,
function-begin and function-end handlers emit `log_functions, DECLARE, s`,
`log_functions, BEGIN, s` and `log_functions, END, s`; for a statement with
line number `n` and kind code `k` the enabled statement handlers emit
`log_functions, STMT START, line n, type L` and
`log_functions, STMT STOP, line n, type L`, with `n` in decimal and
`L = decode_stmt_type k`.  Whatever the toggles and the catalog, the lines a
handler adds to the log all have severity `LOG`. -/
theorem handlers_emit_documented_text (K : StmtTypes) (guc : GUC) (cache : SysCache)
    (func : PLpgSQL_function) (stmt : PLpgSQL_stmt) (b : Backend) (s : String) :
    (guc.log_functions_log_declare = true → cache func.fn_oid = some s →
      (profiler_init guc cache func b).backend.log
        = b.log ++ [⟨ErrorLevel.LOG, "log_functions, DECLARE, " ++ s⟩]) ∧
    (guc.log_functions_log_function_begin = true → cache func.fn_oid = some s →
      (profiler_func_beg guc cache func b).backend.log
        = b.log ++ [⟨ErrorLevel.LOG, "log_functions, BEGIN, " ++ s⟩]) ∧
    (guc.log_functions_log_function_end = true → cache func.fn_oid = some s →
      (profiler_func_end guc cache func b).backend.log
        = b.log ++ [⟨ErrorLevel.LOG, "log_functions, END, " ++ s⟩]) ∧
    (guc.log_functions_log_statement_begin = true →
      (profiler_stmt_beg K guc stmt b).backend.log
        = b.log ++ [⟨ErrorLevel.LOG, "log_functions, STMT START, line " ++ toString stmt.lineno
            ++ ", type " ++ decode_stmt_type K stmt.cmd_type⟩]) ∧
    (guc.log_functions_log_statement_end = true →
      (profiler_stmt_end K guc stmt b).backend.log
        = b.log ++ [⟨ErrorLevel.LOG, "log_functions, STMT STOP, line " ++ toString stmt.lineno
            ++ ", type " ++ decode_stmt_type K stmt.cmd_type⟩]) ∧
    (∀ o ∈ [profiler_init guc cache func b, profiler_func_beg guc cache func b,
        profiler_func_end guc cache func b, profiler_stmt_beg K guc stmt b,
        profiler_stmt_end K guc stmt b],
      ∃ added, o.backend.log = b.log ++ added ∧ ∀ l ∈ added, l.elevel = ErrorLevel.LOG) := by
  refine ⟨?_, ?_, ?_, ?_, ?_, ?_⟩
  · intro h hs; rw [profiler_init_on guc cache func b s h hs]; rfl
  · intro h hs; rw [profiler_func_beg_on guc cache func b s h hs]; rfl
  · intro h hs; rw [profiler_func_end_on guc cache func b s h hs]; rfl
  · intro h; rw [profiler_stmt_beg_on K guc stmt b h]; rfl
  · intro h; rw [profiler_stmt_end_on K guc stmt b h]; rfl
  · intro o ho
    simp only [List.mem_cons, List.mem_singleton, List.not_mem_nil, or_false] at ho
    rcases ho with rfl | rfl | rfl | rfl | rfl
    · exact profiler_init_adds_LOG guc cache func b
    · exact profiler_func_beg_adds_LOG guc cache func b
    · exact profiler_func_end_adds_LOG guc cache func b
    · exact profiler_stmt_beg_adds_LOG K guc stmt b
    · exact profiler_stmt_end_adds_LOG K guc stmt b

/-- Witness of C3: all toggles on, routine 16384 of the sample catalog, an
`ASSIGN` statement at line 12. -/
theorem handlers_emit_documented_text_witness :
    sampleCache 16384 = some "compute_total" ∧
    (profiler_func_end ⟨true, true, true, true, true⟩ sampleCache ⟨16384⟩ Backend.fresh).backend.log
      = Backend.fresh.log ++ [⟨ErrorLevel.LOG, "log_functions, END, " ++ "compute_total"⟩] ∧
    (profiler_stmt_end sampleStmtTypes ⟨true, true, true, true, true⟩ ⟨1, 12⟩
        Backend.fresh).backend.log
      = Backend.fresh.log ++ [⟨ErrorLevel.LOG, "log_functions, STMT STOP, line "
          ++ toString (12 : Int) ++ ", type " ++ decode_stmt_type sampleStmtTypes 1⟩] :=
  ⟨by decide,
   (handlers_emit_documented_text sampleStmtTypes ⟨true, true, true, true, true⟩ sampleCache
      ⟨16384⟩ ⟨1, 12⟩ Backend.fresh "compute_total").2.2.1 rfl (by decide),
   (handlers_emit_documented_text sampleStmtTypes ⟨true, true, true, true, true⟩ sampleCache
      ⟨16384⟩ ⟨1, 12⟩ Backend.fresh "compute_total").2.2.2.2.1 rfl⟩

/-- C8: with both statement toggles on, the line of `profiler_stmt_beg` and
the line of `profiler_stmt_end` for one statement are `STMT START` and
`STMT STOP` followed by the same text, which holds the line number and the
kind label. -/
theorem stmt_beg_end_same_line_and_label (K : StmtTypes) (guc : GUC) (stmt : PLpgSQL_stmt)
    (b1 b2 : Backend) (hb : guc.log_functions_log_statement_begin = true)
    (he : guc.log_functions_log_statement_end = true) :
    ∃ tail : String,
      tail = ", line " ++ toString stmt.lineno ++ ", type " ++ decode_stmt_type K stmt.cmd_type ∧
      profiler_stmt_beg K guc stmt b1
        = .returned () ⟨b1.log ++ [⟨ErrorLevel.LOG, "log_functions, STMT START" ++ tail⟩],
            b1.syscache_lookups⟩ ∧
      profiler_stmt_end K guc stmt b2
        = .returned () ⟨b2.log ++ [⟨ErrorLevel.LOG, "log_functions, STMT STOP" ++ tail⟩],
            b2.syscache_lookups⟩ := by
  refine ⟨_, rfl, ?_, ?_⟩
  · rw [profiler_stmt_beg_on K guc stmt b1 hb]
    congr 4
  · rw [profiler_stmt_end_on K guc stmt b2 he]
    congr 4

/-- Witness of C8: a statement of unknown kind 9999 at line 7. -/
theorem stmt_beg_end_same_line_and_label_witness :
    ∃ tail : String,
      tail = ", line " ++ toString (7 : Int) ++ ", type "
        ++ decode_stmt_type sampleStmtTypes 9999 ∧
      profiler_stmt_beg sampleStmtTypes ⟨false, false, false, true, true⟩ ⟨9999, 7⟩ Backend.fresh
        = .returned () ⟨Backend.fresh.log
            ++ [⟨ErrorLevel.LOG, "log_functions, STMT START" ++ tail⟩],
            Backend.fresh.syscache_lookups⟩ ∧
      profiler_stmt_end sampleStmtTypes ⟨false, false, false, true, true⟩ ⟨9999, 7⟩ Backend.fresh
        = .returned () ⟨Backend.fresh.log
            ++ [⟨ErrorLevel.LOG, "log_functions, STMT STOP" ++ tail⟩],
            Backend.fresh.syscache_lookups⟩ :=
  stmt_beg_end_same_line_and_label sampleStmtTypes ⟨false, false, false, true, true⟩ ⟨9999, 7⟩
    Backend.fresh Backend.fresh rfl rfl


/-! ## Resolution failure and normal return: the claims -/

/-- Counterexample to C4 as stated for every toggle setting: with the declare
toggle off and routine 42 absent from the catalog, `profiler_init` returns
normally and leaves the backend as it was; no error is raised. -/
theorem resolution_failure_needs_own_toggle :
    sampleCache 42 = none ∧
    profiler_init ⟨false, true, true, true, true⟩ sampleCache ⟨42⟩ Backend.fresh
      = .returned () Backend.fresh := by
  decide

/-- C4, amended: for each of the three routine-level handlers, when the
routine identifier is not present in the name-resolution service and the
handler's own toggle is on, the handler ends in the error
`log_functions: cache lookup for proc <oid> failed` and has written no log
line (the log is the one it started with); the other four toggles do not
matter.  When its own toggle is off the handler returns normally and writes
nothing. -/
theorem resolution_failure_raises_without_line (guc : GUC) (cache : SysCache)
    (func : PLpgSQL_function) (b : Backend) (hn : cache func.fn_oid = none) :
    (guc.log_functions_log_declare = true →
      profiler_init guc cache func b
        = .raised ("log_functions: cache lookup for proc " ++ toString func.fn_oid ++ " failed")
            ⟨b.log, b.syscache_lookups + 1⟩) ∧
    (guc.log_functions_log_function_begin = true →
      profiler_func_beg guc cache func b
        = .raised ("log_functions: cache lookup for proc " ++ toString func.fn_oid ++ " failed")
            ⟨b.log, b.syscache_lookups + 1⟩) ∧
    (guc.log_functions_log_function_end = true →
      profiler_func_end guc cache func b
        = .raised ("log_functions: cache lookup for proc " ++ toString func.fn_oid ++ " failed")
            ⟨b.log, b.syscache_lookups + 1⟩) ∧
    (guc.log_functions_log_declare = false →
      profiler_init guc cache func b = .returned () b) ∧
    (guc.log_functions_log_function_begin = false →
      profiler_func_beg guc cache func b = .returned () b) ∧
    (guc.log_functions_log_function_end = false →
      profiler_func_end guc cache func b = .returned () b) :=
  ⟨fun h => profiler_init_missing guc cache func b h hn,
   fun h => profiler_func_beg_missing guc cache func b h hn,
   fun h => profiler_func_end_missing guc cache func b h hn,
   profiler_init_off guc cache func b,
   profiler_func_beg_off guc cache func b,
   profiler_func_end_off guc cache func b⟩

/-- Witness of C4 as amended: routine 7 is absent from the sample catalog;
with the function-end toggle on, `profiler_func_end` raises and the log still
holds the one line it held before. -/
theorem resolution_failure_raises_without_line_witness :
    sampleCache 7 = none ∧
    profiler_func_end ⟨false, false, true, false, false⟩ sampleCache ⟨7⟩
        ⟨[⟨ErrorLevel.LOG, "earlier"⟩], 3⟩
      = .raised ("log_functions: cache lookup for proc " ++ toString (7 : Nat) ++ " failed")
          ⟨[⟨ErrorLevel.LOG, "earlier"⟩], 3 + 1⟩ :=
  ⟨by decide,
   (resolution_failure_raises_without_line ⟨false, false, true, false, false⟩ sampleCache ⟨7⟩
      ⟨[⟨ErrorLevel.LOG, "earlier"⟩], 3⟩ (by decide)).2.2.1 rfl⟩

/-- Counterexample to C9: with the static defaults of the toggles and routine
42 absent from the catalog, `profiler_init` does not return to the host; it
leaves through the error exit. -/
theorem profiler_init_raises_on_defaults :
    profiler_init GUC.static_init sampleCache ⟨42⟩ Backend.fresh
      = .raised "log_functions: cache lookup for proc 42 failed" ⟨[], 1⟩ ∧
    ¬ ∃ b2, profiler_init GUC.static_init sampleCache ⟨42⟩ Backend.fresh = .returned () b2 := by
  have h : profiler_init GUC.static_init sampleCache ⟨42⟩ Backend.fresh
      = .raised "log_functions: cache lookup for proc 42 failed" ⟨[], 1⟩ := by decide
  refine ⟨h, ?_⟩
  rintro ⟨b2, hb⟩
  rw [h] at hb
  cases hb

/-- C9, amended: for every toggle setting and every statement the two
statement handlers return normally to the host.  A routine-level handler
returns normally exactly when its own toggle is off or the routine identifier
resolves; with its toggle on and an identifier that does not resolve it
raises an error. -/
theorem handlers_return_unless_lookup_fails (K : StmtTypes) (guc : GUC) (cache : SysCache)
    (func : PLpgSQL_function) (stmt : PLpgSQL_stmt) (b : Backend) :
    (∃ b2, profiler_stmt_beg K guc stmt b = .returned () b2) ∧
    (∃ b2, profiler_stmt_end K guc stmt b = .returned () b2) ∧
    ((∃ b2, profiler_init guc cache func b = .returned () b2) ↔
      (guc.log_functions_log_declare = false ∨ (cache func.fn_oid).isSome = true)) ∧
    ((∃ b2, profiler_func_beg guc cache func b = .returned () b2) ↔
      (guc.log_functions_log_function_begin = false ∨ (cache func.fn_oid).isSome = true)) ∧
    ((∃ b2, profiler_func_end guc cache func b = .returned () b2) ↔
      (guc.log_functions_log_function_end = false ∨ (cache func.fn_oid).isSome = true)) := by
  refine ⟨?_, ?_, ?_, ?_, ?_⟩
  · cases h : guc.log_functions_log_statement_begin
    · exact ⟨_, profiler_stmt_beg_off K guc stmt b h⟩
    · exact ⟨_, profiler_stmt_beg_on K guc stmt b h⟩
  · cases h : guc.log_functions_log_statement_end
    · exact ⟨_, profiler_stmt_end_off K guc stmt b h⟩
    · exact ⟨_, profiler_stmt_end_on K guc stmt b h⟩
  · cases h : guc.log_functions_log_declare
    · simp [profiler_init_off guc cache func b h]
    · cases hn : cache func.fn_oid with
      | none => simp [profiler_init_missing guc cache func b h hn]
      | some name => simp [profiler_init_on guc cache func b name h hn]
  · cases h : guc.log_functions_log_function_begin
    · simp [profiler_func_beg_off guc cache func b h]
    · cases hn : cache func.fn_oid with
      | none => simp [profiler_func_beg_missing guc cache func b h hn]
      | some name => simp [profiler_func_beg_on guc cache func b name h hn]
  · cases h : guc.log_functions_log_function_end
    · simp [profiler_func_end_off guc cache func b h]
    · cases hn : cache func.fn_oid with
      | none => simp [profiler_func_end_missing guc cache func b h hn]
      | some name => simp [profiler_func_end_on guc cache func b name h hn]

/-- Witness of C9 as amended: with all toggles on, `profiler_func_beg`
returns normally for routine 16384, which the sample catalog resolves. -/
theorem handlers_return_unless_lookup_fails_witness :
    (sampleCache 16384).isSome = true ∧
    ∃ b2, profiler_func_beg ⟨true, true, true, true, true⟩ sampleCache ⟨16384⟩ Backend.fresh
      = .returned () b2 :=
  ⟨by decide,
   (handlers_return_unless_lookup_fails sampleStmtTypes ⟨true, true, true, true, true⟩
      sampleCache ⟨16384⟩ ⟨1, 12⟩ Backend.fresh).2.2.2.1.mpr (Or.inr (by decide))⟩


/-! ## A whole run of the host -/

theorem exec_stmts_cons (hooks : PLpgSQL_plugin) (K : StmtTypes) (guc : GUC)
    (stmt : PLpgSQL_stmt) (rest : List PLpgSQL_stmt) (b : Backend) :
    exec_stmts hooks K guc (stmt :: rest) b
      = (hooks.stmt_beg K guc stmt b).bind fun _ b1 =>
          (hooks.stmt_end K guc stmt b1).bind fun _ b2 => exec_stmts hooks K guc rest b2 := rfl

theorem bind_returned {α β : Type} (v : α) (b : Backend) (k : α → Backend → Outcome β) :
    (Outcome.returned v b).bind k = k v b := rfl

theorem exec_stmts_plugin_funcs (K : StmtTypes) (guc : GUC) (body : List PLpgSQL_stmt)
    (b : Backend) :
    exec_stmts plugin_funcs K guc body b
      = .returned () ⟨b.log ++ expected_stmt_lines K guc body, b.syscache_lookups⟩ := by
  induction body generalizing b with
  | nil => simp [exec_stmts, expected_stmt_lines]
  | cons stmt rest ih =>
    rw [exec_stmts_cons]
    show ((profiler_stmt_beg K guc stmt b).bind fun _ b1 =>
      (profiler_stmt_end K guc stmt b1).bind fun _ b2 => exec_stmts plugin_funcs K guc rest b2) = _
    cases hb : guc.log_functions_log_statement_begin <;>
      cases he : guc.log_functions_log_statement_end
    · rw [profiler_stmt_beg_off K guc stmt b hb, bind_returned,
        profiler_stmt_end_off K guc stmt b he, bind_returned, ih]
      simp [expected_stmt_lines, hb, he]
    · rw [profiler_stmt_beg_off K guc stmt b hb, bind_returned,
        profiler_stmt_end_on K guc stmt b he, bind_returned, ih]
      simp [expected_stmt_lines, hb, he]
    · rw [profiler_stmt_beg_on K guc stmt b hb, bind_returned,
        profiler_stmt_end_off K guc stmt _ he, bind_returned, ih]
      simp [expected_stmt_lines, hb, he]
    · rw [profiler_stmt_beg_on K guc stmt b hb, bind_returned,
        profiler_stmt_end_on K guc stmt _ he, bind_returned, ih]
      simp [expected_stmt_lines, hb, he]

theorem profiler_init_log (guc : GUC) (cache : SysCache) (func : PLpgSQL_function)
    (name : String) (b : Backend) (hn : cache func.fn_oid = some name) :
    ∃ b1, profiler_init guc cache func b = .returned () b1 ∧
      b1.log = b.log ++ (if guc.log_functions_log_declare
        then [⟨ErrorLevel.LOG, "log_functions, DECLARE, " ++ name⟩] else []) := by
  cases h : guc.log_functions_log_declare
  · exact ⟨_, profiler_init_off guc cache func b h, by simp⟩
  · exact ⟨_, profiler_init_on guc cache func b name h hn, by simp⟩

theorem profiler_func_beg_log (guc : GUC) (cache : SysCache) (func : PLpgSQL_function)
    (name : String) (b : Backend) (hn : cache func.fn_oid = some name) :
    ∃ b1, profiler_func_beg guc cache func b = .returned () b1 ∧
      b1.log = b.log ++ (if guc.log_functions_log_function_begin
        then [⟨ErrorLevel.LOG, "log_functions, BEGIN, " ++ name⟩] else []) := by
  cases h : guc.log_functions_log_function_begin
  · exact ⟨_, profiler_func_beg_off guc cache func b h, by simp⟩
  · exact ⟨_, profiler_func_beg_on guc cache func b name h hn, by simp⟩

theorem profiler_func_end_log (guc : GUC) (cache : SysCache) (func : PLpgSQL_function)
    (name : String) (b : Backend) (hn : cache func.fn_oid = some name) :
    ∃ b1, profiler_func_end guc cache func b = .returned () b1 ∧
      b1.log = b.log ++ (if guc.log_functions_log_function_end
        then [⟨ErrorLevel.LOG, "log_functions, END, " ++ name⟩] else []) := by
  cases h : guc.log_functions_log_function_end
  · exact ⟨_, profiler_func_end_off guc cache func b h, by simp⟩
  · exact ⟨_, profiler_func_end_on guc cache func b name h hn, by simp⟩

theorem exec_function_plugin_funcs (K : StmtTypes) (guc : GUC) (cache : SysCache)
    (func : PLpgSQL_function) (name : String) (body : List PLpgSQL_stmt) (b : Backend)
    (hn : cache func.fn_oid = some name) :
    ∃ b2, exec_function plugin_funcs K guc cache func body b = .returned () b2 ∧
      b2.log = b.log ++ expected_log K guc name body := by
  obtain ⟨b1, e1, l1⟩ := profiler_init_log guc cache func name b hn
  obtain ⟨b2, e2, l2⟩ := profiler_func_beg_log guc cache func name b1 hn
  obtain ⟨b4, e4, l4⟩ := profiler_func_end_log guc cache func name
    ⟨b2.log ++ expected_stmt_lines K guc body, b2.syscache_lookups⟩ hn
  refine ⟨b4, ?_, ?_⟩
  · show ((profiler_init guc cache func b).bind fun _ b1 =>
      (profiler_func_beg guc cache func b1).bind fun _ b2 =>
        (exec_stmts plugin_funcs K guc body b2).bind fun _ b3 =>
          profiler_func_end guc cache func b3) = _
    rw [e1, bind_returned, e2, bind_returned, exec_stmts_plugin_funcs, bind_returned, e4]
  · rw [l4, l2, l1]
    simp [expected_log, List.append_assoc]


/-- C5: for every toggle setting and every routine whose name resolves, the
host run `func_setup`, `func_beg`, then `stmt_beg` and `stmt_end` for each
statement in order, then `func_end`, returns normally and appends to the log
exactly the documented lines in the documented order (`expected_log`).  With
no statement the lines are the enabled ones among `DECLARE`, `BEGIN`, `END`.
With the declare toggle off and the other four on, routine `compute_total`
and a single `ASSIGN` statement at line 12, the log grows by the four lines
`BEGIN`, `STMT START`, `STMT STOP`, `END` of the concrete scenario. -/
theorem host_run_log (K : StmtTypes) (guc : GUC) (cache : SysCache) (func : PLpgSQL_function)
    (name : String) (body : List PLpgSQL_stmt) (b : Backend)
    (hn : cache func.fn_oid = some name) :
    (∃ b2, exec_function plugin_funcs K guc cache func body b = .returned () b2 ∧
      b2.log = b.log ++ expected_log K guc name body) ∧
    (∃ b2, exec_function plugin_funcs K guc cache func [] b = .returned () b2 ∧
      b2.log = b.log ++
        ((if guc.log_functions_log_declare
            then [⟨ErrorLevel.LOG, "log_functions, DECLARE, " ++ name⟩] else []) ++
         (if guc.log_functions_log_function_begin
            then [⟨ErrorLevel.LOG, "log_functions, BEGIN, " ++ name⟩] else []) ++
         (if guc.log_functions_log_function_end
            then [⟨ErrorLevel.LOG, "log_functions, END, " ++ name⟩] else []))) ∧
    (K.known.Nodup → name = "compute_total" →
      ∃ b2, exec_function plugin_funcs K ⟨false, true, true, true, true⟩ cache func
          [⟨K.PLPGSQL_STMT_ASSIGN, 12⟩] b = .returned () b2 ∧
        b2.log = b.log ++
          [⟨ErrorLevel.LOG, "log_functions, BEGIN, compute_total"⟩,
           ⟨ErrorLevel.LOG, "log_functions, STMT START, line 12, type ASSIGN"⟩,
           ⟨ErrorLevel.LOG, "log_functions, STMT STOP, line 12, type ASSIGN"⟩,
           ⟨ErrorLevel.LOG, "log_functions, END, compute_total"⟩]) := by
  refine ⟨exec_function_plugin_funcs K guc cache func name body b hn, ?_, ?_⟩
  · obtain ⟨b2, e, l⟩ := exec_function_plugin_funcs K guc cache func name [] b hn
    refine ⟨b2, e, ?_⟩
    rw [l]
    simp [expected_log, expected_stmt_lines]
  · intro hK hname
    obtain ⟨b2, e, l⟩ := exec_function_plugin_funcs K ⟨false, true, true, true, true⟩ cache func
      name [⟨K.PLPGSQL_STMT_ASSIGN, 12⟩] b hn
    refine ⟨b2, e, ?_⟩
    have hA : decode_stmt_type K K.PLPGSQL_STMT_ASSIGN = "ASSIGN" :=
      decode_stmt_type_of_entry K hK _ _ (by simp [stmt_type_table])
    have h1 : "log_functions, STMT START, line " ++ toString (12 : Int) ++ ", type " ++ "ASSIGN"
        = "log_functions, STMT START, line 12, type ASSIGN" := by decide
    have h2 : "log_functions, STMT STOP, line " ++ toString (12 : Int) ++ ", type " ++ "ASSIGN"
        = "log_functions, STMT STOP, line 12, type ASSIGN" := by decide
    have h3 : "log_functions, BEGIN, " ++ "compute_total"
        = "log_functions, BEGIN, compute_total" := by decide
    have h4 : "log_functions, END, " ++ "compute_total"
        = "log_functions, END, compute_total" := by decide
    rw [l, hname]
    simp only [expected_log, expected_stmt_lines, hA, h1, h2, h3, h4]
    simp

/-- Witness of C5 on the sample enumeration and the sample catalog: the
concrete scenario, starting from a backend that has logged nothing. -/
theorem host_run_log_witness :
    sampleCache 16384 = some "compute_total" ∧ sampleStmtTypes.known.Nodup ∧
    ∃ b2, exec_function plugin_funcs sampleStmtTypes ⟨false, true, true, true, true⟩ sampleCache
        ⟨16384⟩ [⟨sampleStmtTypes.PLPGSQL_STMT_ASSIGN, 12⟩] Backend.fresh = .returned () b2 ∧
      b2.log = Backend.fresh.log ++
        [⟨ErrorLevel.LOG, "log_functions, BEGIN, compute_total"⟩,
         ⟨ErrorLevel.LOG, "log_functions, STMT START, line 12, type ASSIGN"⟩,
         ⟨ErrorLevel.LOG, "log_functions, STMT STOP, line 12, type ASSIGN"⟩,
         ⟨ErrorLevel.LOG, "log_functions, END, compute_total"⟩] :=
  ⟨by decide, by decide,
   (host_run_log sampleStmtTypes ⟨false, true, true, true, true⟩ sampleCache ⟨16384⟩
      "compute_total" [] Backend.fresh (by decide)).2.2 (by decide) rfl⟩

/-! ## Registration and defaults: the claims -/

/-- C6: both registration paths install the same five handlers.  After
`load_plugin h` the entries `func_setup`, `func_beg`, `func_end`, `stmt_beg`,
`stmt_end` of the record equal, entry for entry, those of the table
`plugin_funcs` that `_PG_init` publishes in the rendezvous variable
`PLpgSQL_plugin`, and these are `profiler_init`, `profiler_func_beg`,
`profiler_func_end`, `profiler_stmt_beg`, `profiler_stmt_end` in that order;
so a run dispatched through either record is the same run. -/
theorem load_plugin_installs_plugin_funcs (h : PLpgSQL_plugin) (r : Registry) :
    (_PG_init r).rendezvous "PLpgSQL_plugin" = some plugin_funcs ∧
    ((load_plugin h).func_setup = plugin_funcs.func_setup ∧
     (load_plugin h).func_beg = plugin_funcs.func_beg ∧
     (load_plugin h).func_end = plugin_funcs.func_end ∧
     (load_plugin h).stmt_beg = plugin_funcs.stmt_beg ∧
     (load_plugin h).stmt_end = plugin_funcs.stmt_end) ∧
    (plugin_funcs.func_setup = profiler_init ∧
     plugin_funcs.func_beg = profiler_func_beg ∧
     plugin_funcs.func_end = profiler_func_end ∧
     plugin_funcs.stmt_beg = profiler_stmt_beg ∧
     plugin_funcs.stmt_end = profiler_stmt_end) ∧
    (∀ K guc cache func body b,
      exec_function (load_plugin h) K guc cache func body b
        = exec_function plugin_funcs K guc cache func body b) := by
  refine ⟨by simp [_PG_init], ⟨rfl, rfl, rfl, rfl, rfl⟩, ⟨rfl, rfl, rfl, rfl, rfl⟩, ?_⟩
  intro K guc cache func body b
  have e : load_plugin h = plugin_funcs := rfl
  rw [e]

/-- C7: the flags start with the documented defaults, declare, function-begin
and function-end on, statement-begin and statement-end off; and `_PG_init`
defines exactly five custom variables, one per flag, each with a boot value
equal to the static initial value of the flag it is bound to. -/
theorem guc_defaults_match_boot_values (r : Registry) :
    (GUC.static_init.log_functions_log_declare = true ∧
     GUC.static_init.log_functions_log_function_begin = true ∧
     GUC.static_init.log_functions_log_function_end = true ∧
     GUC.static_init.log_functions_log_statement_begin = false ∧
     GUC.static_init.log_functions_log_statement_end = false) ∧
    ∃ defined : List CustomBoolVariable,
      (_PG_init r).custom_variables = r.custom_variables ++ defined ∧
      defined.map (fun v => (v.name, v.valueAddr))
        = [("log_functions.log_declare", GucVar.log_functions_log_declare),
           ("log_functions.log_function_begin", GucVar.log_functions_log_function_begin),
           ("log_functions.log_function_end", GucVar.log_functions_log_function_end),
           ("log_functions.log_statement_begin", GucVar.log_functions_log_statement_begin),
           ("log_functions.log_statement_end", GucVar.log_functions_log_statement_end)] ∧
      ∀ v ∈ defined, v.bootValue = GUC.static_init.deref v.valueAddr := by
  refine ⟨⟨rfl, rfl, rfl, rfl, rfl⟩, _, rfl, rfl, ?_⟩
  decide

end LogFunctions
